import Mathlib

/-!
Verification development for the dali_py repository (a passive DALI bus
analyzer).  The definitions below are a shallow embedding of the Python
sources src/source/dali_usb.py (class DALI_Usb) and src/source/main.py
(the consumer decode loop), plus, where the repository does not ship the
DALI module itself, models taken from the specification.  Bytes are
embedded as Nat, the 64-byte USB packets as List Nat, and the mutable
worker state (the single Raw_Frame object together with the hand-off
queue) as an explicit state record threaded through a step function.
-/

namespace DaliPy

/-- Constants from src/source/dali_usb.py, lines 16 to 24. -/
def DALI_USB_DIRECTION_FROM_DALI : Nat := 0x11

def DALI_USB_DIRECTION_TO_DALI : Nat := 0x12

def DALI_USB_TYPE_8BIT : Nat := 0x02

def DALI_USB_TYPE_16BIT : Nat := 0x03

def DALI_USB_TYPE_24BIT : Nat := 0x06

def DALI_USB_TYPE_STATUS : Nat := 0x07

def DALI_USB_RECEIVE_MASK : Nat := 0x70

/-- Linux errno value for ETIMEDOUT, as Python errno.ETIMEDOUT. -/
def errno_ETIMEDOUT : Int := 110

/-- Linux errno value for ENODEV, as Python errno.ENODEV. -/
def errno_ENODEV : Int := 19

/-- Error taxonomy produced from a bridge sub-status byte; the three
members RECOVER, FRAME and GENERAL of DALI.DALIError used by
read_worker_thread (dali_usb.py lines 181 to 185). -/
inductive ErrorKind where
  | RECOVER : ErrorKind
  | FRAME : ErrorKind
  | GENERAL : ErrorKind
  deriving DecidableEq, Repr

/-- Frame kind constants raw.COMMAND, raw.ERROR, raw.INVALID of
DALI.Raw_Frame as used by dali_usb.py and main.py. -/
inductive FrameKind where
  | COMMAND : FrameKind
  | ERROR : FrameKind
  | INVALID : FrameKind
  deriving DecidableEq, Repr

/-- The value stored in the length field of a Raw_Frame: a bit width
8, 16 or 24 for command frames, or an ErrorKind for error frames
(dali_usb.py stores either a number or a DALI.DALIError member in
raw.length). -/
inductive FrameWidth where
  | bits : Nat → FrameWidth
  | err : ErrorKind → FrameWidth
  deriving DecidableEq, Repr

/-- The fields of one DALI.Raw_Frame object that dali_usb.py reads and
writes: type, timestamp, length and data.  Timestamps are abstracted to
Nat (the host clock value at receipt). -/
structure Raw_Frame where
  type : FrameKind
  timestamp : Nat
  length : FrameWidth
  data : Nat
  deriving DecidableEq, Repr

/-- State of the read worker: the single Raw_Frame object allocated
before the loop in read_worker_thread (dali_usb.py line 143), and the
number of queue.put calls performed so far.  Every put enqueues a
reference to that same object, so the queue as observed by a consumer
is qlen copies of the current value of raw; see observedQueue. -/
structure WorkerState where
  raw : Raw_Frame
  qlen : Nat
  deriving DecidableEq, Repr

/-- The mutation of the shared raw object performed for one received
packet d at host time now; direct transcription of dali_usb.py lines
163 to 186 (the part before queue.put). -/
def updateRaw (raw : Raw_Frame) (now : Nat) (d : List Nat) : Raw_Frame :=
  if d = [] then raw
  else if d.getD 0 0 = DALI_USB_DIRECTION_FROM_DALI then
    let r : Raw_Frame := { raw with type := FrameKind.COMMAND, timestamp := now }
    if d.getD 1 0 = DALI_USB_RECEIVE_MASK + DALI_USB_TYPE_8BIT then
      { r with length := FrameWidth.bits 8, data := d.getD 5 0 }
    else if d.getD 1 0 = DALI_USB_RECEIVE_MASK + DALI_USB_TYPE_16BIT then
      { r with length := FrameWidth.bits 16, data := d.getD 5 0 + (d.getD 4 0) <<< 8 }
    else if d.getD 1 0 = DALI_USB_RECEIVE_MASK + DALI_USB_TYPE_24BIT then
      { r with length := FrameWidth.bits 24,
               data := d.getD 5 0 + ((d.getD 4 0) <<< 8) + ((d.getD 3 0) <<< 16) }
    else if d.getD 1 0 = DALI_USB_RECEIVE_MASK + DALI_USB_TYPE_STATUS then
      let r2 : Raw_Frame := { r with type := FrameKind.ERROR, data := 0 }
      if d.getD 5 0 = 0x04 then { r2 with length := FrameWidth.err ErrorKind.RECOVER }
      else if d.getD 5 0 = 0x03 then { r2 with length := FrameWidth.err ErrorKind.FRAME }
      else { r2 with length := FrameWidth.err ErrorKind.GENERAL }
    else r
  else raw

/-- One loop iteration of read_worker_thread for a successfully read
packet d: mutate the shared raw object, and enqueue it (queue.put,
line 186) exactly when the packet is nonempty and its direction byte is
DALI_USB_DIRECTION_FROM_DALI.  Packets with direction
DALI_USB_DIRECTION_TO_DALI are only logged (line 189). -/
def stepPacket (s : WorkerState) (now : Nat) (d : List Nat) : WorkerState :=
  if d ≠ [] ∧ d.getD 0 0 = DALI_USB_DIRECTION_FROM_DALI then
    { raw := updateRaw s.raw now d, qlen := s.qlen + 1 }
  else
    { s with raw := updateRaw s.raw now d }

/-- The queue contents as a consumer would observe them: queue.put(raw)
stores a reference to the one shared Raw_Frame object, so every one of
the qlen slots denotes the current value of that object. -/
def observedQueue (s : WorkerState) : List Raw_Frame :=
  List.replicate s.qlen s.raw

/-- Outcome of one read_raw call inside the worker loop: a packet, or a
usb.USBError carrying an errno. -/
inductive ReadEvent where
  | ok : List Nat → ReadEvent
  | fail : Int → ReadEvent

/-- One worker loop iteration including the except clause of
read_worker_thread (dali_usb.py lines 191 to 193): a USBError whose
errno is ETIMEDOUT or ENODEV is swallowed and the loop continues; any
other errno is re-raised, which terminates the worker
(modelled as Except.error). -/
def stepEvent (s : WorkerState) (now : Nat) : ReadEvent → Except Int WorkerState
  | ReadEvent.ok d => Except.ok (stepPacket s now d)
  | ReadEvent.fail e =>
      if e = errno_ETIMEDOUT ∨ e = errno_ENODEV then Except.ok s else Except.error e

/-- Run the worker loop over a list of timestamped read outcomes,
stopping with Except.error when an exception propagates. -/
def runWorker (s : WorkerState) : List (Nat × ReadEvent) → Except Int WorkerState
  | [] => Except.ok s
  | (now, ev) :: rest =>
      match stepEvent s now ev with
      | Except.ok s2 => runWorker s2 rest
      | Except.error e => Except.error e

/-- The 64-byte outbound packet built by DALI_Usb.write via
struct.pack with format BBxBxBBB followed by 56 pad bytes
(dali_usb.py line 129): offsets 0 direction, 1 sequence, 2 pad,
3 frame type, 4 pad, 5 extended command, 6 address, 7 opcode. -/
def outPacket (sn ty ec ad oc : Nat) : List Nat :=
  [DALI_USB_DIRECTION_TO_DALI, sn, 0, ty, 0, ec, ad, oc] ++ List.replicate 56 0

/-- DALI_Usb.write (dali_usb.py lines 93 to 133): take the current
message counter as sequence number, advance the counter by one masked
to a byte, then build the outbound packet according to the command
length, or raise (Except.error) when the length is not 1, 2 or 3.
Returns the write outcome together with the new counter value; note the
counter is advanced before the length check, as in the source. -/
def write (counter : Nat) (cmd : List Nat) : Except String (List Nat) × Nat :=
  let sn := counter
  let counter2 := (counter + 1) &&& 0xff
  if cmd.length = 3 then
    (Except.ok (outPacket sn DALI_USB_TYPE_24BIT (cmd.getD 0 0) (cmd.getD 1 0) (cmd.getD 2 0)),
     counter2)
  else if cmd.length = 2 then
    (Except.ok (outPacket sn DALI_USB_TYPE_16BIT 0 (cmd.getD 0 0) (cmd.getD 1 0)), counter2)
  else if cmd.length = 1 then
    (Except.ok (outPacket sn DALI_USB_TYPE_8BIT 0 0 (cmd.getD 0 0)), counter2)
  else
    (Except.error "InvalidCommandLength", counter2)

/-- A burst of successive write calls within one session, threading the
message counter; the counter starts at 1 when the session opens
(dali_usb.py line 33). -/
def runBurst (counter : Nat) : List (List Nat) → List (Except String (List Nat)) × Nat
  | [] => ([], counter)
  | c :: rest =>
      let p := write counter c
      let ps := runBurst p.2 rest
      (p.1 :: ps.1, ps.2)

/-- The sequence-number bytes (offset 1) of the packets actually
transmitted by a burst. -/
def burstSeqNums (counter : Nat) (cmds : List (List Nat)) : List Nat :=
  (runBurst counter cmds).1.filterMap (fun r =>
    match r with
    | Except.ok p => some (p.getD 1 0)
    | Except.error _ => none)

/-- Modelled from the spec: the DALI module (DALI.py) is not among the
analysed sources, so its DeviceType enumeration is modelled from the
specification, which names an unspecified member (NONE, the initial
value used by main.py) and one tag per device-type table; LED is the
member exercised by the repository tests. -/
inductive DeviceType where
  | NONE : DeviceType
  | LED : DeviceType
  deriving DecidableEq, Repr

/-- Trace of the consumer loop of main.py (function main, lines 47 to
69), recording for each decoded frame the frame itself, the device-type
context passed to DALI.Decode, and the decode result.  Frames of kind
INVALID are skipped entirely; frames of kind ERROR are printed without
decoding and leave the context unchanged; frames of kind COMMAND are
decoded with the current context, after which the context becomes
get_next_device_type of the decode result, unconditionally.  The decode
function and its result type are parameters because DALI.Decode lives
in the DALI module, outside the analysed sources. -/
def decodeTrace {C : Type} (decode : Raw_Frame → DeviceType → C) (next : C → DeviceType) :
    DeviceType → List Raw_Frame → List (Raw_Frame × DeviceType × C)
  | _, [] => []
  | dt, raw :: rest =>
      if raw.type = FrameKind.INVALID then
        decodeTrace decode next dt rest
      else if raw.type = FrameKind.COMMAND then
        (raw, dt, decode raw dt) :: decodeTrace decode next (next (decode raw dt)) rest
      else
        decodeTrace decode next dt rest

/-- The device-type contexts recorded in a trace form a chain starting
at dt: each entry was decoded under the context produced by the entry
before it. -/
def chainFrom {C : Type} (next : C → DeviceType) :
    DeviceType → List (Raw_Frame × DeviceType × C) → Prop
  | _, [] => True
  | dt, e :: rest => e.2.1 = dt ∧ chainFrom next (next e.2.2) rest

/-- Left-justify a string to 10 columns with spaces, as the Python
str.ljust(10) used for the address tag in decoded labels. -/
def ljust10 (s : String) : String :=
  s ++ String.mk (List.replicate (10 - s.length) (Char.ofNat 32))

/-- Two-digit zero-padded decimal rendering of n, for n below 100, as
the Python format {n:02}. -/
def pad2 (n : Nat) : String :=
  String.mk [Char.ofNat (48 + n / 10), Char.ofNat (48 + n % 10)]

/-- Modelled from the spec: DALI.py is not among the analysed sources,
so the DT6 (device type LED, IEC 62386-207 Table 6) opcode table of the
ProtocolDecoder is modelled from the specification and the expectations
of src/tests/scripts/test_207.py; an opcode with no entry yields a
dash-prefixed placeholder. -/
def dt6CommandName (opcode : Nat) : String :=
  if opcode = 0xE0 then "REFERENCE SYSTEM POWER"
  else if opcode = 0xE3 then "SELECT DIMMING CURVE (DTR0)"
  else if opcode = 0xE4 then "SET FAST FADE TIME (DTR0)"
  else if opcode = 0xED then "QUERY CONTROL GEAR TYPE"
  else if opcode = 0xEE then "QUERY DIMMING CURVE"
  else if opcode = 0xF0 then "QUERY FEATURES"
  else if opcode = 0xF4 then "QUERY LOAD DECREASE"
  else if opcode = 0xF5 then "QUERY LOAD INCREASE"
  else if opcode = 0xF7 then "QUERY THERMAL SHUTDOWN"
  else if opcode = 0xF8 then "QUERY THERMAL OVERLOAD"
  else if opcode = 0xF9 then "QUERY REFERENCE RUNNING"
  else if opcode = 0xFA then "QUERY REFERENCE MEASUREMENT FAILED"
  else if opcode = 0xFD then "QUERY FAST FADE TIME"
  else if opcode = 0xFE then "QUERY MIN FAST FADE TIME"
  else if opcode = 0xFF then "QUERY EXTENDED VERSION NUMBER"
  else "---"

/-- Modelled from the spec: address classification of the
ProtocolDecoder (spec section 4.2), applied to the address byte of a
16-bit frame.  All bits set is the addressed broadcast; the broadcast
family with the second-lowest bit clear is broadcast-unaddressed; a
clear top bit with the opcode-selector bit set is a short address whose
index is the next six bits; top bits 10 with the selector bit set is a
group address whose index is the next four bits.  Tags follow the
fixed-width forms the tests expect. -/
def decodeAddressTag (a : Nat) : String :=
  if a = 0xFF then "BC"
  else if a = 0xFD then "BC unadr."
  else if a < 0x80 ∧ a % 2 = 1 then "A" ++ pad2 (a / 2 % 64)
  else if a / 64 = 2 ∧ a % 2 = 1 then "G" ++ pad2 (a / 2 % 16)
  else "?"

/-- Modelled from the spec: decoding of a 16-bit Command frame payload
under DeviceType LED into its human-readable label, the address tag
left-justified to 10 columns followed by the command name resolved
through the DT6 table (spec sections 4.2 and 8; DALI.Decode itself is
in the DALI module, outside the analysed sources). -/
def decodeLED16 (payload : Nat) : String :=
  ljust10 (decodeAddressTag (payload / 256 % 256)) ++ dt6CommandName (payload % 256)

/-- C2: for every inbound bridge-originated Command packet, the
Raw_Frame payload is reconstructed as byte 5 for the 8-bit width, byte
5 plus byte 4 shifted by 8 for the 16-bit width, and byte 5 plus byte 4
shifted by 8 plus byte 3 shifted by 16 for the 24-bit width, with the
width field set to 8, 16 or 24 accordingly. -/
theorem command_payload_reconstruction (s : WorkerState) (now : Nat) (d : List Nat)
    (hne : d ≠ []) (hdir : d.getD 0 0 = DALI_USB_DIRECTION_FROM_DALI) :
    (d.getD 1 0 = DALI_USB_RECEIVE_MASK + DALI_USB_TYPE_8BIT →
      (stepPacket s now d).raw.length = FrameWidth.bits 8 ∧
      (stepPacket s now d).raw.data = d.getD 5 0) ∧
    (d.getD 1 0 = DALI_USB_RECEIVE_MASK + DALI_USB_TYPE_16BIT →
      (stepPacket s now d).raw.length = FrameWidth.bits 16 ∧
      (stepPacket s now d).raw.data = d.getD 5 0 + (d.getD 4 0) <<< 8) ∧
    (d.getD 1 0 = DALI_USB_RECEIVE_MASK + DALI_USB_TYPE_24BIT →
      (stepPacket s now d).raw.length = FrameWidth.bits 24 ∧
      (stepPacket s now d).raw.data
        = d.getD 5 0 + (d.getD 4 0) <<< 8 + (d.getD 3 0) <<< 16) := by
  refine ⟨fun h8 => ?_, fun h16 => ?_, fun h24 => ?_⟩ <;>
    simp_all [stepPacket, updateRaw, DALI_USB_DIRECTION_FROM_DALI, DALI_USB_RECEIVE_MASK,
      DALI_USB_TYPE_8BIT, DALI_USB_TYPE_16BIT, DALI_USB_TYPE_24BIT, DALI_USB_TYPE_STATUS]

/-- Witness for C2 at a concrete 16-bit command packet. -/
theorem command_payload_reconstruction_witness :
    (stepPacket ⟨⟨FrameKind.INVALID, 0, FrameWidth.bits 0, 0⟩, 0⟩ 7
        ([0x11, 0x73, 0, 0xAA, 0xBB, 0xCC] ++ List.replicate 58 0)).raw.length
      = FrameWidth.bits 16 ∧
    (stepPacket ⟨⟨FrameKind.INVALID, 0, FrameWidth.bits 0, 0⟩, 0⟩ 7
        ([0x11, 0x73, 0, 0xAA, 0xBB, 0xCC] ++ List.replicate 58 0)).raw.data = 0xBBCC := by
  have h := (command_payload_reconstruction ⟨⟨FrameKind.INVALID, 0, FrameWidth.bits 0, 0⟩, 0⟩ 7
    ([0x11, 0x73, 0, 0xAA, 0xBB, 0xCC] ++ List.replicate 58 0) (by decide) (by decide)).2.1
    (by decide)
  exact ⟨h.1, by rw [h.2]; decide⟩

/-- C4: for every inbound bridge-originated Status packet, whatever the
sub-status byte, the worker enqueues a frame of kind ERROR with payload
0 whose width field holds the classified ErrorKind: sub-code 4 gives
RECOVER, 3 gives FRAME, and every other value gives GENERAL. -/
theorem status_packet_error_frame (s : WorkerState) (now : Nat) (d : List Nat)
    (hne : d ≠ []) (hdir : d.getD 0 0 = DALI_USB_DIRECTION_FROM_DALI)
    (hty : d.getD 1 0 = DALI_USB_RECEIVE_MASK + DALI_USB_TYPE_STATUS) :
    (stepPacket s now d).qlen = s.qlen + 1 ∧
    (stepPacket s now d).raw.type = FrameKind.ERROR ∧
    (stepPacket s now d).raw.data = 0 ∧
    (stepPacket s now d).raw.length = FrameWidth.err
      (if d.getD 5 0 = 0x04 then ErrorKind.RECOVER
       else if d.getD 5 0 = 0x03 then ErrorKind.FRAME
       else ErrorKind.GENERAL) := by
  by_cases h4 : d.getD 5 0 = 0x04
  · simp_all [stepPacket, updateRaw, DALI_USB_DIRECTION_FROM_DALI, DALI_USB_RECEIVE_MASK,
      DALI_USB_TYPE_8BIT, DALI_USB_TYPE_16BIT, DALI_USB_TYPE_24BIT, DALI_USB_TYPE_STATUS]
  · by_cases h3 : d.getD 5 0 = 0x03 <;>
      simp_all [stepPacket, updateRaw, DALI_USB_DIRECTION_FROM_DALI, DALI_USB_RECEIVE_MASK,
        DALI_USB_TYPE_8BIT, DALI_USB_TYPE_16BIT, DALI_USB_TYPE_24BIT, DALI_USB_TYPE_STATUS]

/-- Witness for C4 at a concrete status packet with sub-code 4. -/
theorem status_packet_error_frame_witness :
    (stepPacket ⟨⟨FrameKind.INVALID, 0, FrameWidth.bits 0, 0⟩, 3⟩ 9
        ([0x11, 0x77, 0, 0, 0, 0x04] ++ List.replicate 58 0)).qlen = 4 ∧
    (stepPacket ⟨⟨FrameKind.INVALID, 0, FrameWidth.bits 0, 0⟩, 3⟩ 9
        ([0x11, 0x77, 0, 0, 0, 0x04] ++ List.replicate 58 0)).raw.type = FrameKind.ERROR ∧
    (stepPacket ⟨⟨FrameKind.INVALID, 0, FrameWidth.bits 0, 0⟩, 3⟩ 9
        ([0x11, 0x77, 0, 0, 0, 0x04] ++ List.replicate 58 0)).raw.data = 0 ∧
    (stepPacket ⟨⟨FrameKind.INVALID, 0, FrameWidth.bits 0, 0⟩, 3⟩ 9
        ([0x11, 0x77, 0, 0, 0, 0x04] ++ List.replicate 58 0)).raw.length
      = FrameWidth.err ErrorKind.RECOVER := by
  have h := status_packet_error_frame ⟨⟨FrameKind.INVALID, 0, FrameWidth.bits 0, 0⟩, 3⟩ 9
    ([0x11, 0x77, 0, 0, 0, 0x04] ++ List.replicate 58 0) (by decide) (by decide) (by decide)
  exact ⟨h.1, h.2.1, h.2.2.1, by rw [h.2.2.2]; decide⟩

/-- C7: a received packet whose direction byte marks it as an echo of a
host-originated transmission leaves the worker state, and hence the
hand-off queue, completely unchanged; and the queue can only grow on a
packet whose direction byte marks it as bridge-originated. -/
theorem echo_packets_not_queued (s : WorkerState) (now : Nat) (d : List Nat) :
    (d.getD 0 0 = DALI_USB_DIRECTION_TO_DALI → stepPacket s now d = s) ∧
    ((stepPacket s now d).qlen ≠ s.qlen →
      d ≠ [] ∧ d.getD 0 0 = DALI_USB_DIRECTION_FROM_DALI) := by
  constructor
  · intro hdir
    by_cases hd : d = [] <;>
      simp_all [stepPacket, updateRaw, DALI_USB_DIRECTION_TO_DALI,
        DALI_USB_DIRECTION_FROM_DALI]
  · intro hq
    by_cases hc : d ≠ [] ∧ d.getD 0 0 = DALI_USB_DIRECTION_FROM_DALI
    · exact hc
    · exfalso
      apply hq
      unfold stepPacket
      rw [if_neg hc]

/-- Witness for C7 at a concrete echo packet. -/
theorem echo_packets_not_queued_witness :
    stepPacket ⟨⟨FrameKind.COMMAND, 5, FrameWidth.bits 8, 0x42⟩, 2⟩ 11
        ([0x12, 0x73, 0, 0, 0xFF, 0x08] ++ List.replicate 58 0)
      = ⟨⟨FrameKind.COMMAND, 5, FrameWidth.bits 8, 0x42⟩, 2⟩ :=
  (echo_packets_not_queued ⟨⟨FrameKind.COMMAND, 5, FrameWidth.bits 8, 0x42⟩, 2⟩ 11
    ([0x12, 0x73, 0, 0, 0xFF, 0x08] ++ List.replicate 58 0)).1 (by decide)

/-- C10: a bridge-originated packet whose type byte matches none of the
four recognized receive codes is still enqueued, as a frame of kind
COMMAND with a fresh timestamp whose width and payload retain the
values left over from the previously processed packet; it is neither
marked INVALID nor discarded. -/
theorem unrecognized_type_byte_still_queued (s : WorkerState) (now : Nat) (d : List Nat)
    (hne : d ≠ []) (hdir : d.getD 0 0 = DALI_USB_DIRECTION_FROM_DALI)
    (h8 : d.getD 1 0 ≠ DALI_USB_RECEIVE_MASK + DALI_USB_TYPE_8BIT)
    (h16 : d.getD 1 0 ≠ DALI_USB_RECEIVE_MASK + DALI_USB_TYPE_16BIT)
    (h24 : d.getD 1 0 ≠ DALI_USB_RECEIVE_MASK + DALI_USB_TYPE_24BIT)
    (hst : d.getD 1 0 ≠ DALI_USB_RECEIVE_MASK + DALI_USB_TYPE_STATUS) :
    stepPacket s now d =
      { raw := { s.raw with type := FrameKind.COMMAND, timestamp := now },
        qlen := s.qlen + 1 } := by
  simp_all [stepPacket, updateRaw, DALI_USB_DIRECTION_FROM_DALI, DALI_USB_RECEIVE_MASK,
    DALI_USB_TYPE_8BIT, DALI_USB_TYPE_16BIT, DALI_USB_TYPE_24BIT, DALI_USB_TYPE_STATUS]

/-- Witness for C10 at a concrete packet with unrecognized type byte
0x74 (the 25-bit code, which the receive path does not handle), showing
stale width and payload carried into the queued frame. -/
theorem unrecognized_type_byte_still_queued_witness :
    stepPacket ⟨⟨FrameKind.ERROR, 4, FrameWidth.bits 16, 0x1234⟩, 1⟩ 8
        ([0x11, 0x74, 0, 0, 0, 0x55] ++ List.replicate 58 0)
      = ⟨⟨FrameKind.COMMAND, 8, FrameWidth.bits 16, 0x1234⟩, 2⟩ :=
  unrecognized_type_byte_still_queued ⟨⟨FrameKind.ERROR, 4, FrameWidth.bits 16, 0x1234⟩, 1⟩ 8
    ([0x11, 0x74, 0, 0, 0, 0x55] ++ List.replicate 58 0)
    (by decide) (by decide) (by decide) (by decide) (by decide) (by decide)

/-- C1: read_worker_thread allocates one Raw_Frame before its loop and
mutates that same object for every packet, and queue.put stores a
reference to it; consequently a frame already placed in the hand-off
queue IS affected by the processing of later packets.  Concretely:
after an 8-bit command packet with opcode byte 0x10 the single queued
frame carries payload 0x10, but after a second 8-bit packet with opcode
byte 0x20 the first queue slot now reads payload 0x20 with the second
timestamp — the already-queued frame changed. -/
theorem queued_frame_mutated_by_later_packet :
    observedQueue (stepPacket ⟨⟨FrameKind.INVALID, 0, FrameWidth.bits 0, 0⟩, 0⟩ 1
        ([0x11, 0x72, 0, 0, 0, 0x10] ++ List.replicate 58 0))
      = [⟨FrameKind.COMMAND, 1, FrameWidth.bits 8, 0x10⟩] ∧
    observedQueue (stepPacket (stepPacket ⟨⟨FrameKind.INVALID, 0, FrameWidth.bits 0, 0⟩, 0⟩ 1
          ([0x11, 0x72, 0, 0, 0, 0x10] ++ List.replicate 58 0)) 2
        ([0x11, 0x72, 0, 0, 0, 0x20] ++ List.replicate 58 0))
      = [⟨FrameKind.COMMAND, 2, FrameWidth.bits 8, 0x20⟩,
         ⟨FrameKind.COMMAND, 2, FrameWidth.bits 8, 0x20⟩] ∧
    (observedQueue (stepPacket (stepPacket ⟨⟨FrameKind.INVALID, 0, FrameWidth.bits 0, 0⟩, 0⟩ 1
          ([0x11, 0x72, 0, 0, 0, 0x10] ++ List.replicate 58 0)) 2
        ([0x11, 0x72, 0, 0, 0, 0x20] ++ List.replicate 58 0))).getD 0
        ⟨FrameKind.INVALID, 0, FrameWidth.bits 0, 0⟩
      ≠ ⟨FrameKind.COMMAND, 1, FrameWidth.bits 8, 0x10⟩ := by
  refine ⟨by decide, by decide, by decide⟩

/-- C5 counterexample: a usb.USBError with errno ENODEV (device no
longer present) does NOT terminate the worker loop and is not surfaced
as a failure: the iteration returns normally and the loop goes on to
process and enqueue a subsequent packet. -/
theorem enodev_not_fatal_counterexample :
    stepEvent ⟨⟨FrameKind.INVALID, 0, FrameWidth.bits 0, 0⟩, 0⟩ 5
        (ReadEvent.fail errno_ENODEV)
      = Except.ok ⟨⟨FrameKind.INVALID, 0, FrameWidth.bits 0, 0⟩, 0⟩ ∧
    runWorker ⟨⟨FrameKind.INVALID, 0, FrameWidth.bits 0, 0⟩, 0⟩
        [(5, ReadEvent.fail errno_ENODEV),
         (6, ReadEvent.ok ([0x11, 0x72, 0, 0, 0, 0x37] ++ List.replicate 58 0))]
      = Except.ok ⟨⟨FrameKind.COMMAND, 6, FrameWidth.bits 8, 0x37⟩, 1⟩ := by
  refine ⟨rfl, rfl⟩

/-- C5 amended: a read failure with errno ETIMEDOUT or errno ENODEV is
swallowed and the worker loop continues without error; a read failure
with any other errno is re-raised and terminates the worker loop. -/
theorem read_error_loop_behavior (s : WorkerState) (now : Nat) (e : Int) :
    ((e = errno_ETIMEDOUT ∨ e = errno_ENODEV) →
      stepEvent s now (ReadEvent.fail e) = Except.ok s) ∧
    (e ≠ errno_ETIMEDOUT → e ≠ errno_ENODEV →
      stepEvent s now (ReadEvent.fail e) = Except.error e) := by
  constructor
  · intro h
    simp [stepEvent, h]
  · intro h1 h2
    simp [stepEvent, h1, h2]

/-- Witness for C5 amended at errno ENODEV and at errno 5 (EIO). -/
theorem read_error_loop_behavior_witness :
    stepEvent ⟨⟨FrameKind.INVALID, 0, FrameWidth.bits 0, 0⟩, 2⟩ 3
        (ReadEvent.fail errno_ENODEV)
      = Except.ok ⟨⟨FrameKind.INVALID, 0, FrameWidth.bits 0, 0⟩, 2⟩ ∧
    stepEvent ⟨⟨FrameKind.INVALID, 0, FrameWidth.bits 0, 0⟩, 2⟩ 3 (ReadEvent.fail 5)
      = Except.error 5 :=
  ⟨(read_error_loop_behavior ⟨⟨FrameKind.INVALID, 0, FrameWidth.bits 0, 0⟩, 2⟩ 3
      errno_ENODEV).1 (Or.inr rfl),
   (read_error_loop_behavior ⟨⟨FrameKind.INVALID, 0, FrameWidth.bits 0, 0⟩, 2⟩ 3 5).2
      (by decide) (by decide)⟩

/-- C3: a 3-byte command is transmitted as a 24-bit-type packet whose
extended-command, address and opcode bytes (offsets 5, 6, 7) are the
three command bytes in order; a 2-byte command as a 16-bit-type packet
with extended command 0; a 1-byte command as an 8-bit-type packet with
extended command 0 and address 0; and any other length fails with
InvalidCommandLength, producing no packet. -/
theorem write_encode_cases (counter : Nat) (cmd : List Nat) :
    (cmd.length = 3 → (write counter cmd).1 = Except.ok
      ([DALI_USB_DIRECTION_TO_DALI, counter, 0, DALI_USB_TYPE_24BIT, 0,
        cmd.getD 0 0, cmd.getD 1 0, cmd.getD 2 0] ++ List.replicate 56 0)) ∧
    (cmd.length = 2 → (write counter cmd).1 = Except.ok
      ([DALI_USB_DIRECTION_TO_DALI, counter, 0, DALI_USB_TYPE_16BIT, 0,
        0, cmd.getD 0 0, cmd.getD 1 0] ++ List.replicate 56 0)) ∧
    (cmd.length = 1 → (write counter cmd).1 = Except.ok
      ([DALI_USB_DIRECTION_TO_DALI, counter, 0, DALI_USB_TYPE_8BIT, 0,
        0, 0, cmd.getD 0 0] ++ List.replicate 56 0)) ∧
    (cmd.length ≠ 1 → cmd.length ≠ 2 → cmd.length ≠ 3 →
      (write counter cmd).1 = Except.error "InvalidCommandLength") := by
  refine ⟨fun h3 => ?_, fun h2 => ?_, fun h1 => ?_, fun h1 h2 h3 => ?_⟩ <;>
    simp_all [write, outPacket]

/-- Witness for C3 at a concrete 3-byte command and a concrete 4-byte
command. -/
theorem write_encode_cases_witness :
    (write 9 [0xC1, 0xFF, 0x08]).1 = Except.ok
      ([0x12, 9, 0, 0x06, 0, 0xC1, 0xFF, 0x08] ++ List.replicate 56 0) ∧
    (write 9 [1, 2, 3, 4]).1 = Except.error "InvalidCommandLength" :=
  ⟨(write_encode_cases 9 [0xC1, 0xFF, 0x08]).1 (by decide),
   (write_encode_cases 9 [1, 2, 3, 4]).2.2.2 (by decide) (by decide) (by decide)⟩

/-- Masking with 0xff is reduction modulo 256. -/
lemma and_255_eq_mod (n : Nat) : n &&& 0xff = n % 256 := by
  have h := Nat.and_pow_two_sub_one_eq_mod n 8
  norm_num at h
  exact h

/-- One valid write prepends its sequence number (the current counter)
to the sequence numbers of the rest of the burst. -/
lemma burstSeqNums_cons (c : Nat) (cmd : List Nat) (rest : List (List Nat))
    (hv : cmd.length = 1 ∨ cmd.length = 2 ∨ cmd.length = 3) :
    burstSeqNums c (cmd :: rest) = c :: burstSeqNums ((c + 1) &&& 0xff) rest := by
  rcases hv with h | h | h <;>
    simp [burstSeqNums, runBurst, write, outPacket, h]

/-- Closed form for the sequence numbers of an all-valid burst started
at counter c below 256: the k-th packet carries (c + k) mod 256. -/
lemma burstSeqNums_eq (cmds : List (List Nat)) : ∀ c : Nat, c < 256 →
    (∀ x ∈ cmds, x.length = 1 ∨ x.length = 2 ∨ x.length = 3) →
    burstSeqNums c cmds = (List.range cmds.length).map (fun k => (c + k) % 256) := by
  induction cmds with
  | nil =>
      intro c _ _
      simp [burstSeqNums, runBurst]
  | cons cmd rest ih =>
      intro c hc hv
      rw [burstSeqNums_cons c cmd rest (hv cmd (by simp))]
      rw [ih ((c + 1) &&& 0xff) (by rw [and_255_eq_mod]; omega)
          (fun x hx => hv x (by simp [hx]))]
      rw [and_255_eq_mod]
      simp only [List.length_cons, List.range_succ_eq_map, List.map_cons, List.map_map]
      congr 1
      · omega
      · refine List.map_congr_left fun k hk => ?_
        simp only [Function.comp]
        omega

/-- C6: within one session (counter initialized to 1), an all-valid
send burst assigns sequence number (1 + k) mod 256 to its k-th packet,
so the numbers start at 1, step by 1 modulo 256, and no two packets of
a burst of at most 256 sends share a sequence number. -/
theorem sequence_numbers_in_burst (cmds : List (List Nat))
    (hv : ∀ x ∈ cmds, x.length = 1 ∨ x.length = 2 ∨ x.length = 3)
    (hn : cmds.length ≤ 256) :
    burstSeqNums 1 cmds = (List.range cmds.length).map (fun k => (1 + k) % 256) ∧
    (0 < cmds.length → (burstSeqNums 1 cmds).getD 0 0 = 1) ∧
    (burstSeqNums 1 cmds).Nodup := by
  have h := burstSeqNums_eq cmds 1 (by omega) hv
  refine ⟨h, ?_, ?_⟩
  · intro hpos
    rcases cmds with _ | ⟨a, l⟩
    · simp at hpos
    · rw [h]
      simp [List.range_succ_eq_map]
  · rw [h]
    refine List.Nodup.map_on ?_ (List.nodup_range cmds.length)
    intro x hx y hy hxy
    rw [List.mem_range] at hx hy
    omega

/-- Witness for C6 at a concrete three-command burst. -/
theorem sequence_numbers_in_burst_witness :
    burstSeqNums 1 [[0x10], [0xFF, 0x90], [0x01, 0x02, 0x03]] = [1, 2, 3] ∧
    (burstSeqNums 1 [[0x10], [0xFF, 0x90], [0x01, 0x02, 0x03]]).Nodup := by
  have h := sequence_numbers_in_burst [[0x10], [0xFF, 0x90], [0x01, 0x02, 0x03]]
    (by decide) (by decide)
  exact ⟨by rw [h.1]; decide, h.2.2⟩

/-- The trace produced by the consumer loop is a chain: starting from
the initial context, every decode call saw the context produced by the
call before it. -/
lemma chainFrom_decodeTrace {C : Type} (decode : Raw_Frame → DeviceType → C)
    (next : C → DeviceType) :
    ∀ (frames : List Raw_Frame) (dt : DeviceType),
      chainFrom next dt (decodeTrace decode next dt frames) := by
  intro frames
  induction frames with
  | nil =>
      intro dt
      trivial
  | cons f rest ih =>
      intro dt
      by_cases hinv : f.type = FrameKind.INVALID
      · simpa [decodeTrace, hinv] using ih dt
      · by_cases hcmd : f.type = FrameKind.COMMAND
        · simp only [decodeTrace, if_neg hinv, if_pos hcmd, chainFrom]
          exact ⟨trivial, ih (next (decode f dt))⟩
        · simpa [decodeTrace, hinv, hcmd] using ih dt

/-- Indexed reading of the chain property: entry 0 carries the initial
context and entry i+1 carries next of the result of entry i. -/
lemma chainFrom_getD {C : Type} (next : C → DeviceType)
    (dflt : Raw_Frame × DeviceType × C) :
    ∀ (tr : List (Raw_Frame × DeviceType × C)) (dt : DeviceType),
      chainFrom next dt tr →
      (0 < tr.length → (tr.getD 0 dflt).2.1 = dt) ∧
      (∀ i, i + 1 < tr.length →
        (tr.getD (i + 1) dflt).2.1 = next ((tr.getD i dflt).2.2)) := by
  intro tr
  induction tr with
  | nil =>
      intro dt _
      exact ⟨fun h => absurd h (by simp), fun i hi => absurd hi (by simp)⟩
  | cons e rest ih =>
      intro dt hch
      obtain ⟨he, hrest⟩ := hch
      refine ⟨fun _ => by simpa using he, ?_⟩
      intro i hi
      cases i with
      | zero =>
          have h0 := (ih (next e.2.2) hrest).1 (Nat.lt_of_succ_lt_succ hi)
          simpa using h0
      | succ j =>
          have h1 := (ih (next e.2.2) hrest).2 j (Nat.lt_of_succ_lt_succ hi)
          simpa using h1

/-- C8: in the consumer decode loop of main.py, the device-type context
passed to each decode call of a Command frame equals the
next-device-type returned by the immediately preceding decode call,
with initial context NONE, unconditionally — whatever the decode
function, its carryover function, and the interleaving of command,
error and invalid frames. -/
theorem device_context_carryover {C : Type} (decode : Raw_Frame → DeviceType → C)
    (next : C → DeviceType) (frames : List Raw_Frame)
    (dflt : Raw_Frame × DeviceType × C) :
    (0 < (decodeTrace decode next DeviceType.NONE frames).length →
      ((decodeTrace decode next DeviceType.NONE frames).getD 0 dflt).2.1
        = DeviceType.NONE) ∧
    (∀ i, i + 1 < (decodeTrace decode next DeviceType.NONE frames).length →
      ((decodeTrace decode next DeviceType.NONE frames).getD (i + 1) dflt).2.1
        = next (((decodeTrace decode next DeviceType.NONE frames).getD i dflt).2.2)) :=
  chainFrom_getD next dflt _ DeviceType.NONE
    (chainFrom_decodeTrace decode next frames DeviceType.NONE)

/-- Witness for C8: a concrete three-frame run (an enabling command, an
intervening error frame, then a second command) in which the second
decode call receives the context produced by the first one even though
the error frame sits between them. -/
theorem device_context_carryover_witness :
    ((decodeTrace (fun r _ => r.data)
        (fun c => if c = 0xC106 then DeviceType.LED else DeviceType.NONE)
        DeviceType.NONE
        [⟨FrameKind.COMMAND, 1, FrameWidth.bits 16, 0xC106⟩,
         ⟨FrameKind.ERROR, 2, FrameWidth.err ErrorKind.GENERAL, 0⟩,
         ⟨FrameKind.COMMAND, 3, FrameWidth.bits 16, 0xFF90⟩]).getD 1
        ⟨⟨FrameKind.INVALID, 0, FrameWidth.bits 0, 0⟩, DeviceType.NONE, 0⟩).2.1
      = DeviceType.LED := by
  have h := (device_context_carryover (fun r _ => r.data)
    (fun c => if c = 0xC106 then DeviceType.LED else DeviceType.NONE)
    [⟨FrameKind.COMMAND, 1, FrameWidth.bits 16, 0xC106⟩,
     ⟨FrameKind.ERROR, 2, FrameWidth.err ErrorKind.GENERAL, 0⟩,
     ⟨FrameKind.COMMAND, 3, FrameWidth.bits 16, 0xFF90⟩]
    ⟨⟨FrameKind.INVALID, 0, FrameWidth.bits 0, 0⟩, DeviceType.NONE, 0⟩).2 0 (by decide)
  rw [h]
  decide

/-- C9: decoding a 16-bit Command frame under DeviceType LED: payload
0xFF00 + 0xE0 yields the broadcast tag followed by REFERENCE SYSTEM
POWER; payload 0x0100 + (s shifted by 9) + 0xE0 yields the numbered
short-address tag for s followed by the same name, for every s in
0..63; and payload 0x8100 + (g shifted by 9) + 0xE0 yields the group
tag for g likewise, for every g in 0..15. -/
theorem dt6_led_command_labels :
    decodeLED16 (0xFF00 + 0xE0) = "BC        REFERENCE SYSTEM POWER" ∧
    (∀ s : Fin 64, decodeLED16 (0x0100 + (s.val <<< 9) + 0xE0)
      = ljust10 ("A" ++ pad2 s.val) ++ "REFERENCE SYSTEM POWER") ∧
    (∀ g : Fin 16, decodeLED16 (0x8100 + (g.val <<< 9) + 0xE0)
      = ljust10 ("G" ++ pad2 g.val) ++ "REFERENCE SYSTEM POWER") := by
  refine ⟨by decide, by decide, by decide⟩

end DaliPy
